import Mathlib

/-!
Verification of the `jobkit` management server, the `jobkit` config, the
`r2` TLS client-config option and the `assert` helpers of the go-sdk
repository, as a shallow embedding in Lean 4.

The management-server handlers (`src/jobkit/managent_server.go`), the
config (`Config.MaxLogBytesOrDefault`), the dashboard template's history
rendering, the `r2.TLSClientConfig` option and the `assert` package's
comparison helpers are translated from the source.  The `cron.JobManager`
operations the handlers call (`Job`, `RunJob`, `CancelJob`, `EnableJob`,
`DisableJob`, `IsRunning`) are not part of the given sources; they are
modelled from the specification (sections 4.5 and 6) and marked as such.
-/

namespace Jobkit

/-- Terminal status of one invocation (spec section 3: one of running,
success, failed, cancelled, timed-out). -/
inductive RunStatus where
  | running
  | succeeded
  | failed
  | cancelled
  | timedOut
deriving DecidableEq, Repr

/-- One run of one job (`cron.JobInvocation` as presented by the status
API: ID, started, finished, timeout deadline, cancelled timestamp,
elapsed, terminal status, error).  Timestamps are abstract ticks. -/
structure JobInvocation where
  id : Nat
  started : Nat
  finished : Option Nat
  timeout : Option Nat
  cancelled : Option Nat
  elapsed : Nat
  status : RunStatus
  err : Option String
deriving DecidableEq, Repr

/-- Per-job state held by the manager: the descriptor's mutable enabled
flag and overlap policy, plus the invocation tracker's
current/last/history (spec sections 3 and 4.4). -/
structure JobState where
  enabled : Bool
  serial : Bool
  current : Option JobInvocation
  last : Option JobInvocation
  history : List JobInvocation
deriving DecidableEq, Repr

/-- The typed control-operation failures of the core (spec section 6:
`not found`, `busy`). -/
inductive JobError where
  | notFound
  | busy
deriving DecidableEq, Repr

/-- Modelled from the spec: the `cron.JobManager` facade's state — its
exclusively-owned mapping from job name to per-job state, the liveness
of its scheduling loop, a clock and an invocation-ID counter.  The
`cron` package is not under the given sources. -/
structure JobManager where
  jobs : List (String × JobState)
  running : Bool
  now : Nat
  nextID : Nat
deriving DecidableEq, Repr

deriving instance DecidableEq for Except

/-- Look a job up by name in the manager's registry. -/
def JobManager.findJob (jm : JobManager) (name : String) : Option JobState :=
  (jm.jobs.find? (fun p => p.1 == name)).map (·.2)

/-- Replace the state stored under `name` (other entries untouched). -/
def JobManager.setJob (jm : JobManager) (name : String) (st : JobState) :
    JobManager :=
  { jm with jobs := jm.jobs.map (fun p => if p.1 == name then (p.1, st) else p) }

/-- Read-only snapshot of one job returned by the status queries (spec
section 4.5: name, enabled, plus the tracker snapshot). -/
structure JobStatus where
  name : String
  enabled : Bool
  current : Option JobInvocation
  last : Option JobInvocation
  history : List JobInvocation
deriving DecidableEq, Repr

instance : Inhabited JobStatus :=
  ⟨{ name := "", enabled := false, current := none, last := none, history := [] }⟩

/-- Modelled from the spec: `JobManager.Job(name)` — the single-job
status query; read-only, fails with "not found" iff the name is
unregistered (spec section 4.5). -/
def JobManager.job (jm : JobManager) (name : String) :
    Except JobError JobStatus :=
  match jm.findJob name with
  | none => .error .notFound
  | some st => .ok { name := name, enabled := st.enabled,
                     current := st.current, last := st.last,
                     history := st.history }

/-- Modelled from the spec: `JobManager.Status()` — read-only snapshot of
every registered job (spec section 4.5). -/
def JobManager.status (jm : JobManager) : List JobStatus :=
  jm.jobs.map (fun p => { name := p.1, enabled := p.2.enabled,
                          current := p.2.current, last := p.2.last,
                          history := p.2.history })

/-- The running record the engine registers when a run is admitted
(spec section 4.3: allocated in the running state, registered as the
job's current record before the action is invoked). -/
def newInvocation (jm : JobManager) : JobInvocation :=
  { id := jm.nextID, started := jm.now, finished := none, timeout := none,
    cancelled := none, elapsed := 0, status := .running, err := none }

/-- Modelled from the spec: `JobManager.RunJob(name)` — manual trigger;
fails "not found" for unregistered names, "busy" when overlap is
disallowed and a run is in progress; otherwise admits a new running
record and returns as soon as it is admitted (spec section 4.5). -/
def JobManager.runJob (jm : JobManager) (name : String) :
    Except JobError JobManager :=
  match jm.findJob name with
  | none => .error .notFound
  | some st =>
    if st.current.isSome && st.serial then .error .busy
    else
      .ok ({ jm.setJob name { st with current := some (newInvocation jm) } with
             nextID := jm.nextID + 1 })

/-- Modelled from the spec: `JobManager.CancelJob(name)` — fails "not
found" for unregistered names; a no-op returning success when the job has
no current run; otherwise sets the cancelled timestamp on the current
record and requests cooperative termination (spec section 4.5). -/
def JobManager.cancelJob (jm : JobManager) (name : String) :
    Except JobError JobManager :=
  match jm.findJob name with
  | none => .error .notFound
  | some st =>
    match st.current with
    | none => .ok jm
    | some inv =>
      .ok (jm.setJob name
            { st with current := some { inv with cancelled := some jm.now } })

/-- Modelled from the spec: `JobManager.EnableJob(name)` — sets the
enabled flag, fails "not found" for unknown names (spec section 4.5). -/
def JobManager.enableJob (jm : JobManager) (name : String) :
    Except JobError JobManager :=
  match jm.findJob name with
  | none => .error .notFound
  | some st => .ok (jm.setJob name { st with enabled := true })

/-- Modelled from the spec: `JobManager.DisableJob(name)` — clears the
enabled flag, fails "not found" for unknown names (spec section 4.5). -/
def JobManager.disableJob (jm : JobManager) (name : String) :
    Except JobError JobManager :=
  match jm.findJob name with
  | none => .error .notFound
  | some st => .ok (jm.setJob name { st with enabled := false })

/-- Modelled from the spec: `JobManager.IsRunning()` — liveness of the
scheduling loop (spec section 4.5). -/
def JobManager.isRunning (jm : JobManager) : Bool := jm.running

/-- The results a management-server handler can return
(`web.JSON.OK`, `web.JSON.Result`, `web.JSON.BadRequest`,
`web.JSON.InternalError`, as used in `managent_server.go`). -/
inductive WebResult where
  | ok
  | jsonStatus (s : JobStatus)
  | jsonMessage (m : String)
  | badRequest (e : JobError)
  | internalError
deriving DecidableEq, Repr

/-- The `GET /healthz` handler (`managent_server.go` lines 18-23): OK when
`jm.IsRunning()`, otherwise an internal error. -/
def handleHealthz (jm : JobManager) : WebResult :=
  if jm.isRunning then .ok else .internalError

/-- The `GET /api/job.status/:jobName` handler (`managent_server.go`
lines 27-37), translated exactly as written: it calls `jm.Job(jobName)`
and DISCARDS the error, then calls `jm.RunJob(jobName)`; a `RunJob`
error becomes a bad request, otherwise the (possibly zero-valued)
status is returned.  The route-parameter extraction, which precedes this
and belongs to the web framework, is outside the embedding.  Returns the
result together with the manager state after the handler. -/
def handleJobStatus (jm : JobManager) (jobName : String) :
    WebResult × JobManager :=
  let status := jm.job jobName
  match jm.runJob jobName with
  | .error e => (.badRequest e, jm)
  | .ok jm' => (.jsonStatus (status.toOption.getD default), jm')

/-- The `POST /api/job.run/:jobName` handler (`managent_server.go` lines
38-47): a `RunJob` error becomes a bad request, otherwise OK. -/
def handleJobRun (jm : JobManager) (jobName : String) :
    WebResult × JobManager :=
  match jm.runJob jobName with
  | .error e => (.badRequest e, jm)
  | .ok jm' => (.ok, jm')

/-- The `POST /api/job.cancel/:jobName` handler (`managent_server.go`
lines 48-57): a `CancelJob` error becomes a bad request, otherwise OK. -/
def handleJobCancel (jm : JobManager) (jobName : String) :
    WebResult × JobManager :=
  match jm.cancelJob jobName with
  | .error e => (.badRequest e, jm)
  | .ok jm' => (.ok, jm')

/-- The `POST /api/job.disable/:jobName` handler (`managent_server.go`
lines 58-67): a `DisableJob` error becomes a bad request, otherwise a
"<name> disabled" message. -/
def handleJobDisable (jm : JobManager) (jobName : String) :
    WebResult × JobManager :=
  match jm.disableJob jobName with
  | .error e => (.badRequest e, jm)
  | .ok jm' => (.jsonMessage (jobName ++ " disabled"), jm')

/-- The `POST /api/job.enable/:jobName` handler (`managent_server.go`
lines 68-77): an `EnableJob` error becomes a bad request, otherwise a
"<name> enabled" message. -/
def handleJobEnable (jm : JobManager) (jobName : String) :
    WebResult × JobManager :=
  match jm.enableJob jobName with
  | .error e => (.badRequest e, jm)
  | .ok jm' => (.jsonMessage (jobName ++ " enabled"), jm')

/-- Modelled from the spec: `configutil.CoalesceInt` (the `configutil`
package is not under the given sources) — returns the configured value
when set (non-zero) and the given default when unset (zero), matching
"a configured maximum log-capture size ... with documented defaults when
unset". -/
def CoalesceInt (value defaultValue : Int) : Int :=
  if value ≠ 0 then value else defaultValue

/-- Modelled from the spec: the `DefaultMaxLogBytes` constant (declared
elsewhere in the `jobkit` package) — the documented default maximum
log-capture size in bytes. -/
def DefaultMaxLogBytes : Int := 10 * 1024 * 1024

/-- The `jobkit.Config` fields relevant here (the embedded `cron.Config`
and the logger/web/alerting sub-configs are opaque to these claims). -/
structure Config where
  maxLogBytes : Int
  disableManagementServer : Bool
deriving DecidableEq, Repr

/-- `Config.MaxLogBytesOrDefault`: the maximum amount of log data to
buffer (`src/unnamed/part_001` lines 33-36). -/
def Config.MaxLogBytesOrDefault (c : Config) : Int :=
  CoalesceInt c.maxLogBytes DefaultMaxLogBytes

/-- One rendered history row of the dashboard's per-job history table
(`indexTemplate`, `src/unnamed/part_001` lines 120-129: Invocation ID,
Started, Finished, Timeout, Cancelled, Elapsed, Error). -/
structure HistoryRow where
  id : Nat
  started : Nat
  finished : Option Nat
  timeout : Option Nat
  cancelled : Option Nat
  elapsed : Nat
  err : Option String
deriving DecidableEq, Repr

/-- Modelled from the spec: the `reverse` template view-func applied in
`$job.History | reverse` (declared in the web-framework's view helpers,
not under the given sources) — list reversal, producing the
reverse-chronological presentation of spec section 6. -/
def viewReverse (xs : List JobInvocation) : List JobInvocation :=
  xs.reverse

/-- The cells the template emits for one history entry. -/
def rowOfInvocation (ji : JobInvocation) : HistoryRow :=
  { id := ji.id, started := ji.started, finished := ji.finished,
    timeout := ji.timeout, cancelled := ji.cancelled,
    elapsed := ji.elapsed, err := ji.err }

/-- The dashboard's history table body: the template ranges over
`$job.History | reverse`, emitting one row per entry in that order. -/
def renderHistoryRows (history : List JobInvocation) : List HistoryRow :=
  (viewReverse history).map rowOfInvocation

/-- The finish instant of an invocation, for stating order (a tracker
history holds finished records; `getD 0` only pads the unreachable
unfinished case). -/
def finishKey (ji : JobInvocation) : Nat := ji.finished.getD 0

/-- The finish instant shown on a rendered row. -/
def rowFinishKey (row : HistoryRow) : Nat := row.finished.getD 0

end Jobkit

namespace R2

/-- The `tls.Config` fields relevant to the option (the full struct is
opaque to the option, which only stores the pointer). -/
structure TLSConf where
  serverName : String
  insecureSkipVerify : Bool
deriving DecidableEq, Repr

/-- The `http.Transport` as seen by the option: its `TLSClientConfig`
pointer (none = nil) plus representative further fields, untouched by
the option. -/
structure HTTPTransport where
  tlsClientConfig : Option TLSConf
  maxIdleConns : Nat
  disableCompression : Bool
deriving DecidableEq, Repr

/-- An `http.RoundTripper` stored in `Client.Transport`: either a
concrete `*http.Transport` or a round tripper of some other dynamic
type (which the option's type assertion rejects). -/
inductive RoundTripper where
  | transport (t : HTTPTransport)
  | custom (tag : Nat)
deriving DecidableEq, Repr

/-- The `http.Client` as seen by the option: its `Transport` field
(none = nil) plus a representative further field, untouched by the
option. -/
structure HTTPClient where
  transport : Option RoundTripper
  timeoutMillis : Nat
deriving DecidableEq, Repr

/-- The `r2.Request` fields relevant here: the `Client` pointer
(none = nil) plus representative request fields the option must not
touch. -/
structure Request where
  method : String
  url : String
  client : Option HTTPClient
deriving DecidableEq, Repr

/-- The zero `http.Client` allocated by `&http.Client\x7b\x7d`. -/
def defaultHTTPClient : HTTPClient :=
  { transport := none, timeoutMillis := 0 }

/-- The zero `http.Transport` allocated by `&http.Transport\x7b\x7d`. -/
def defaultHTTPTransport : HTTPTransport :=
  { tlsClientConfig := none, maxIdleConns := 0, disableCompression := false }

/-- `r2.TLSClientConfig` (`src/r2/opt_tls_client_config.go` lines 10-22):
create the client if nil, create the transport if nil, and when the
transport is a `*http.Transport` set its `TLSClientConfig` to `cfg`. -/
def TLSClientConfig (cfg : Option TLSConf) (r : Request) : Request :=
  let client := r.client.getD defaultHTTPClient
  let transport := client.transport.getD (.transport defaultHTTPTransport)
  let transport' :=
    match transport with
    | .transport t => RoundTripper.transport { t with tlsClientConfig := cfg }
    | .custom tag => RoundTripper.custom tag
  { r with client := some { client with transport := some transport' } }

/-- The round tripper reachable from a request, `r.Client.Transport`. -/
def requestTransport (r : Request) : Option RoundTripper :=
  r.client.bind (·.transport)

end R2

namespace GoAssert

/-!
A universe of Go `interface\x7b\x7d` values for the assert package's
comparison helpers.  It covers the nil interface, scalars, strings and
the collection kinds (map, slice, channel) the code branches on, plus a
struct as a representative non-collection composite.  `reflect`'s
`ConvertibleTo`/`Convert` are modelled on this universe by the numeric
conversions between its integer types; `reflect.DeepEqual` is structural
equality of values.
-/

/-- A dynamically-typed Go value as passed to the assert helpers. -/
inductive GoValue where
  | nilV
  | boolV (b : Bool)
  | intV (n : Int)
  | int64V (n : Int)
  | stringV (s : String)
  | sliceIntV (xs : List Int)
  | mapV (entries : List (String × Int))
  | chanV (len : Nat)
  | structV (a b : Int)
deriving DecidableEq, Repr

/-- The dynamic type of a value (`reflect.TypeOf`); the nil interface
has none. -/
inductive GoType where
  | boolT
  | intT
  | int64T
  | stringT
  | sliceIntT
  | mapStringIntT
  | chanIntT
  | structT
deriving DecidableEq, Repr

/-- `reflect.TypeOf`: `none` exactly for the nil interface. -/
def goTypeOf : GoValue → Option GoType
  | .nilV => none
  | .boolV _ => some .boolT
  | .intV _ => some .intT
  | .int64V _ => some .int64T
  | .stringV _ => some .stringT
  | .sliceIntV _ => some .sliceIntT
  | .mapV _ => some .mapStringIntT
  | .chanV _ => some .chanIntT
  | .structV _ _ => some .structT

/-- `reflect.Type.ConvertibleTo` on this universe: every type converts
to itself, and the integer types convert to each other. -/
def convertibleTo (src dst : GoType) : Bool :=
  src == dst ||
    (src == GoType.intT && dst == GoType.int64T) ||
    (src == GoType.int64T && dst == GoType.intT)

/-- `reflect.Value.Convert` on the convertible pairs (identity
elsewhere, where it is never consulted). -/
def convert (v : GoValue) (dst : GoType) : GoValue :=
  match v, dst with
  | .intV n, .int64T => .int64V n
  | .int64V n, .intT => .intV n
  | v, _ => v

/-- `reflect.DeepEqual` on this universe: structural equality. -/
def deepEqual (x y : GoValue) : Bool := x == y

/-- The `EMPTY` string constant of the assert package. -/
def EMPTY : String := ""

/-- `areEqual` (`src/r2/opt_tls_client_config.go` lines 1231-1249): two
nils are equal, nil never equals non-nil, and otherwise the expected
value is converted to the actual's type when convertible before deep
comparison. -/
def areEqual (expected actual : GoValue) : Bool :=
  if expected == .nilV && actual == .nilV then true
  else if (expected == .nilV && actual != .nilV) ||
          (expected != .nilV && actual == .nilV) then false
  else
    match goTypeOf actual with
    | none => false
    | some actualType =>
      match goTypeOf expected with
      | some expectedType =>
        if convertibleTo expectedType actualType then
          deepEqual (convert expected actualType) actual
        else deepEqual expected actual
      | none => deepEqual expected actual

/-- The failure message of `shouldBeEqual` (the source formats the two
operands through `shouldBeMultipleMessage`; the text is opaque to the
claims). -/
def equalMessage (expected actual : GoValue) : String :=
  "Objects should be equal " ++ reprStr expected ++ " " ++ reprStr actual

/-- The failure message of `shouldNotBeEqual`. -/
def notEqualMessage (expected actual : GoValue) : String :=
  "Objects should not be equal " ++ reprStr expected ++ " " ++ reprStr actual

/-- `shouldBeEqual` (`src/r2/opt_tls_client_config.go` lines 832-837):
fails (first component `true`) exactly when `areEqual` is false. -/
def shouldBeEqual (expected actual : GoValue) : Bool × String :=
  if !(areEqual expected actual) then
    (true, equalMessage expected actual)
  else (false, EMPTY)

/-- `shouldNotBeEqual` (`src/r2/opt_tls_client_config.go` lines
863-868): fails exactly when `areEqual` is true. -/
def shouldNotBeEqual (expected actual : GoValue) : Bool × String :=
  if areEqual expected actual then
    (true, notEqualMessage expected actual)
  else (false, EMPTY)

/-- `getLength` (`src/r2/opt_tls_client_config.go` lines 1183-1201): 0
for nil and for the empty string; the `Len()` of maps, slices, channels
and strings; 0 for every other kind. -/
def getLength (object : GoValue) : Nat :=
  if object == .nilV then 0
  else if object == .stringV "" then 0
  else
    match object with
    | .mapV entries => entries.length
    | .sliceIntV xs => xs.length
    | .chanV len => len
    | .stringV s => s.utf8ByteSize
    | _ => 0

/-- `shouldNotBeEmpty` (`src/r2/opt_tls_client_config.go` lines
816-822): fails exactly when `getLength` is 0. -/
def shouldNotBeEmpty (collection : GoValue) : Bool × String :=
  if getLength collection == 0 then (true, "Should not be empty")
  else (false, EMPTY)

/-- The failure message of `shouldBeEmpty`. -/
def shouldBeMessage (object : GoValue) (message : String) : String :=
  message ++ " " ++ reprStr object

/-- `shouldBeEmpty` (`src/r2/opt_tls_client_config.go` lines 824-830):
fails exactly when `getLength` is non-zero. -/
def shouldBeEmpty (collection : GoValue) : Bool × String :=
  if getLength collection != 0 then
    (true, shouldBeMessage collection "Should be empty")
  else (false, EMPTY)

/-- The inputs of claim C10: nil, the empty string, and every value
whose kind is not map, slice, channel or string. -/
def nilEmptyOrNonCollection (v : GoValue) : Bool :=
  match v with
  | .nilV => true
  | .stringV s => s == ""
  | .mapV _ => false
  | .sliceIntV _ => false
  | .chanV _ => false
  | .boolV _ => true
  | .intV _ => true
  | .int64V _ => true
  | .structV _ _ => true

end GoAssert

namespace Jobkit

/-- A registered, enabled job with no current run, no history and
overlap disallowed. -/
def idleJob : JobState :=
  { enabled := true, serial := true, current := none, last := none,
    history := [] }

/-- A manager with the single idle job "demo", scheduling loop live. -/
def demoManager : JobManager :=
  { jobs := [("demo", idleJob)], running := true, now := 100, nextID := 1 }

/-- An invocation still in progress. -/
def runningInvocation : JobInvocation :=
  { id := 7, started := 90, finished := none, timeout := none,
    cancelled := none, elapsed := 0, status := .running, err := none }

/-- The idle job with a run in progress. -/
def busyJob : JobState := { idleJob with current := some runningInvocation }

/-- A manager whose job "demo" has a run in progress and overlap
disallowed. -/
def busyManager : JobManager :=
  { jobs := [("demo", busyJob)], running := true, now := 100, nextID := 8 }

/-- A manager whose scheduling loop is stopped. -/
def stoppedManager : JobManager :=
  { jobs := [("demo", idleJob)], running := false, now := 0, nextID := 1 }

/-- A finished, successful invocation (for history fixtures). -/
def finishedInvocation (i s f : Nat) : JobInvocation :=
  { id := i, started := s, finished := some f, timeout := none,
    cancelled := none, elapsed := f - s, status := .succeeded, err := none }

end Jobkit

namespace Claims

open Jobkit R2 GoAssert

/-- C1: the claim says a GET status request invokes only query
operations and leaves every job's tracker state unchanged; the handler
at `managent_server.go` lines 27-37 instead calls `jm.RunJob(jobName)`,
so on a registered idle job the handler admits a new run: the manager
state after the request differs from the state before, and the job now
has a current record. -/
theorem statusEndpointMutatesTracker :
    (handleJobStatus demoManager "demo").2 ≠ demoManager ∧
    ((handleJobStatus demoManager "demo").2.findJob "demo").map
        (fun st => st.current.isSome) = some true := by
  decide

/-- C2: the claim says the single-job status query succeeds whenever the
name is registered and no other condition makes it fail; but because the
handler calls `RunJob`, a registered job with a run already in progress
(overlap disallowed) makes the query fail with "busy". -/
theorem statusEndpointFailsBusyOnRegisteredJob :
    busyManager.findJob "demo" ≠ none ∧
    (handleJobStatus busyManager "demo").1 = .badRequest .busy := by
  decide

/-- Whether a handler result is a success response (OK or a JSON
payload) rather than a failure response. -/
def isSuccess : WebResult → Bool
  | .ok => true
  | .jsonStatus _ => true
  | .jsonMessage _ => true
  | .badRequest _ => false
  | .internalError => false

/-- Whether a manager operation returned no error. -/
def opOk : Except JobError JobManager → Bool
  | .ok _ => true
  | .error _ => false

/-- C3: each control endpoint (job.run, job.cancel, job.enable,
job.disable) returns a success result exactly when the corresponding
manager operation returns no error, and otherwise returns a failure
response carrying that operation's typed error. -/
theorem controlEndpointsMirrorManagerOps (jm : JobManager) (n : String) :
    (isSuccess (handleJobRun jm n).1 = opOk (jm.runJob n) ∧
      ∀ e, jm.runJob n = .error e → (handleJobRun jm n).1 = .badRequest e) ∧
    (isSuccess (handleJobCancel jm n).1 = opOk (jm.cancelJob n) ∧
      ∀ e, jm.cancelJob n = .error e →
        (handleJobCancel jm n).1 = .badRequest e) ∧
    (isSuccess (handleJobEnable jm n).1 = opOk (jm.enableJob n) ∧
      ∀ e, jm.enableJob n = .error e →
        (handleJobEnable jm n).1 = .badRequest e) ∧
    (isSuccess (handleJobDisable jm n).1 = opOk (jm.disableJob n) ∧
      ∀ e, jm.disableJob n = .error e →
        (handleJobDisable jm n).1 = .badRequest e) := by
  refine ⟨⟨?_, ?_⟩, ⟨?_, ?_⟩, ⟨?_, ?_⟩, ⟨?_, ?_⟩⟩
  · cases h : jm.runJob n <;> simp [handleJobRun, h, isSuccess, opOk]
  · intro e he; simp [handleJobRun, he]
  · cases h : jm.cancelJob n <;> simp [handleJobCancel, h, isSuccess, opOk]
  · intro e he; simp [handleJobCancel, he]
  · cases h : jm.enableJob n <;> simp [handleJobEnable, h, isSuccess, opOk]
  · intro e he; simp [handleJobEnable, he]
  · cases h : jm.disableJob n <;> simp [handleJobDisable, h, isSuccess, opOk]
  · intro e he; simp [handleJobDisable, he]

/-- Witness for C3: on the concrete manager with only job "demo", the
name "ghost" is unregistered, every operation fails "not found", and
every endpoint surfaces exactly that error. -/
theorem controlEndpointsMirrorManagerOpsWitness :
    demoManager.runJob "ghost" = .error .notFound ∧
    (handleJobRun demoManager "ghost").1 = .badRequest .notFound ∧
    (handleJobCancel demoManager "ghost").1 = .badRequest .notFound ∧
    (handleJobEnable demoManager "ghost").1 = .badRequest .notFound ∧
    (handleJobDisable demoManager "ghost").1 = .badRequest .notFound :=
  ⟨by decide,
   (controlEndpointsMirrorManagerOps demoManager "ghost").1.2 .notFound
     (by decide),
   (controlEndpointsMirrorManagerOps demoManager "ghost").2.1.2 .notFound
     (by decide),
   (controlEndpointsMirrorManagerOps demoManager "ghost").2.2.1.2 .notFound
     (by decide),
   (controlEndpointsMirrorManagerOps demoManager "ghost").2.2.2.2 .notFound
     (by decide)⟩

/-- C4: GET /healthz returns OK exactly when `isRunning()` is true, and
an internal-error failure when it is false. -/
theorem healthzReportsLiveness (jm : JobManager) :
    (handleHealthz jm = .ok ↔ jm.isRunning = true) ∧
    (jm.isRunning = false → handleHealthz jm = .internalError) := by
  cases h : jm.isRunning <;> simp [handleHealthz, h]

/-- Witness for C4: the stopped manager reports not running and /healthz
answers with an internal error. -/
theorem healthzReportsLivenessWitness :
    stoppedManager.isRunning = false ∧
    handleHealthz stoppedManager = .internalError :=
  ⟨by decide, (healthzReportsLiveness stoppedManager).2 (by decide)⟩

/-- C5: `MaxLogBytesOrDefault` returns the configured `MaxLogBytes` when
it is set (non-zero) and `DefaultMaxLogBytes` when it is unset (zero). -/
theorem maxLogBytesOrDefaultSpec (c : Config) :
    (c.maxLogBytes ≠ 0 → c.MaxLogBytesOrDefault = c.maxLogBytes) ∧
    (c.maxLogBytes = 0 → c.MaxLogBytesOrDefault = DefaultMaxLogBytes) := by
  unfold Config.MaxLogBytesOrDefault CoalesceInt
  constructor <;> intro h <;> simp [h]

/-- Witness for C5: a config with 2048 bytes set keeps it, a config with
0 falls back to the default. -/
theorem maxLogBytesOrDefaultWitness :
    (2048 : Int) ≠ 0 ∧
    (Config.mk 2048 false).MaxLogBytesOrDefault = 2048 ∧
    (Config.mk 0 false).MaxLogBytesOrDefault = DefaultMaxLogBytes :=
  ⟨by decide,
   (maxLogBytesOrDefaultSpec (Config.mk 2048 false)).1 (by decide),
   (maxLogBytesOrDefaultSpec (Config.mk 0 false)).2 (by decide)⟩

/-- C6: the dashboard renders a job's history as exactly the reversal of
the tracker's list, so a history kept oldest-finished-first is shown
newest-finished-first, with no reordering beyond the reversal. -/
theorem historyRenderedNewestFirst (history : List JobInvocation) :
    renderHistoryRows history = (history.map rowOfInvocation).reverse ∧
    (history.Pairwise (fun a b => finishKey a ≤ finishKey b) →
      (renderHistoryRows history).Pairwise
        (fun a b => rowFinishKey b ≤ rowFinishKey a)) := by
  constructor
  · simp [renderHistoryRows, viewReverse]
  · intro h
    simp only [renderHistoryRows, viewReverse]
    rw [List.pairwise_map, List.pairwise_reverse]
    refine h.imp ?_
    intro a b hab
    simpa [rowFinishKey, rowOfInvocation, finishKey] using hab

/-- Witness for C6: a two-entry history finished at instants 20 then 40
is in finish order, and its rendering is ordered newest first. -/
theorem historyRenderedNewestFirstWitness :
    ([finishedInvocation 1 10 20,
      finishedInvocation 2 30 40].Pairwise
        (fun a b => finishKey a ≤ finishKey b)) ∧
    ((renderHistoryRows
        [finishedInvocation 1 10 20, finishedInvocation 2 30 40]).Pairwise
        (fun a b => rowFinishKey b ≤ rowFinishKey a)) :=
  ⟨by decide,
   (historyRenderedNewestFirst
      [finishedInvocation 1 10 20, finishedInvocation 2 30 40]).2
     (by decide)⟩

/-- C7: for a registered job with no current run, the job.cancel
endpoint returns OK and the manager state is unchanged; cancelJob fails
only with "not found" when the name is unregistered. -/
theorem cancelNoCurrentRunIsNoop (jm : JobManager) (n : String) :
    (∀ st, jm.findJob n = some st → st.current = none →
        handleJobCancel jm n = (.ok, jm)) ∧
    (jm.findJob n = none →
        handleJobCancel jm n = (.badRequest .notFound, jm)) := by
  constructor
  · intro st hfind hcur
    simp [handleJobCancel, JobManager.cancelJob, hfind, hcur]
  · intro hfind
    simp [handleJobCancel, JobManager.cancelJob, hfind]

/-- Witness for C7: cancelling the idle job "demo" is a no-op success,
cancelling the unregistered "ghost" is a not-found failure. -/
theorem cancelNoCurrentRunIsNoopWitness :
    demoManager.findJob "demo" = some idleJob ∧ idleJob.current = none ∧
    handleJobCancel demoManager "demo" = (.ok, demoManager) ∧
    demoManager.findJob "ghost" = none ∧
    handleJobCancel demoManager "ghost" = (.badRequest .notFound, demoManager) :=
  ⟨by decide, by decide,
   (cancelNoCurrentRunIsNoop demoManager "demo").1 idleJob (by decide)
     (by decide),
   by decide,
   (cancelNoCurrentRunIsNoop demoManager "ghost").2 (by decide)⟩

/-- C8: applying the `TLSClientConfig` option leaves the request with a
non-nil client whose transport is non-nil; whenever that transport is an
`*http.Transport` its `TLSClientConfig` field equals the supplied
config; the request's other fields are unchanged; and a pre-existing
client or transport is reused — the client keeps its other fields, an
existing `*http.Transport` keeps its other fields and only gains the
config, and a round tripper of another type is left exactly as it was. -/
theorem tlsClientConfigSetsOnlyTLS (r : Request) (cfg : Option TLSConf) :
    ((TLSClientConfig cfg r).client).isSome = true ∧
    (requestTransport (TLSClientConfig cfg r)).isSome = true ∧
    (∀ ht, requestTransport (TLSClientConfig cfg r) =
        some (.transport ht) → ht.tlsClientConfig = cfg) ∧
    (TLSClientConfig cfg r).method = r.method ∧
    (TLSClientConfig cfg r).url = r.url ∧
    (∀ c, r.client = some c →
        ((TLSClientConfig cfg r).client).map (·.timeoutMillis) =
          some c.timeoutMillis) ∧
    (∀ c ht, r.client = some c → c.transport = some (.transport ht) →
        requestTransport (TLSClientConfig cfg r) =
          some (.transport { ht with tlsClientConfig := cfg })) ∧
    (∀ c tag, r.client = some c → c.transport = some (.custom tag) →
        requestTransport (TLSClientConfig cfg r) = some (.custom tag)) := by
  rcases r with ⟨m, u, c⟩
  rcases c with _ | ⟨t, tm⟩
  · simp [TLSClientConfig, requestTransport, defaultHTTPClient,
          defaultHTTPTransport]
  · rcases t with _ | (⟨ht⟩ | tag) <;>
      simp [TLSClientConfig, requestTransport, defaultHTTPTransport] <;>
      refine ⟨?_, ?_⟩ <;> (rintro c x rfl h) <;> simp_all

/-- Witness for C8: on a request that already has a client with an
`*http.Transport`, the option only sets the transport's config. -/
theorem tlsClientConfigSetsOnlyTLSWitness :
    (Request.mk "GET" "http://example.com"
        (some (HTTPClient.mk
          (some (.transport (HTTPTransport.mk none 4 true))) 30))).client =
      some (HTTPClient.mk
        (some (.transport (HTTPTransport.mk none 4 true))) 30) ∧
    requestTransport
        (TLSClientConfig (some (TLSConf.mk "example.com" false))
          (Request.mk "GET" "http://example.com"
            (some (HTTPClient.mk
              (some (.transport (HTTPTransport.mk none 4 true))) 30)))) =
      some (.transport
        (HTTPTransport.mk (some (TLSConf.mk "example.com" false)) 4 true)) :=
  ⟨rfl,
   (tlsClientConfigSetsOnlyTLS
      (Request.mk "GET" "http://example.com"
        (some (HTTPClient.mk
          (some (.transport (HTTPTransport.mk none 4 true))) 30)))
      (some (TLSConf.mk "example.com" false))).2.2.2.2.2.2.1
     (HTTPClient.mk (some (.transport (HTTPTransport.mk none 4 true))) 30)
     (HTTPTransport.mk none 4 true) rfl rfl⟩

/-- C9: `shouldNotBeEqual` fails exactly when `shouldBeEqual` succeeds —
the first components are Boolean complements — and both are determined
by the same `areEqual` relation, which treats two nils as equal and
converts convertible types (here `int` to `int64`) before the deep
comparison. -/
theorem shouldNotBeEqualComplementsShouldBeEqual (x y : GoValue) :
    (shouldBeEqual x y).1 = !(areEqual x y) ∧
    (shouldNotBeEqual x y).1 = areEqual x y ∧
    (shouldNotBeEqual x y).1 = !((shouldBeEqual x y).1) ∧
    areEqual .nilV .nilV = true ∧
    areEqual (.intV 3) (.int64V 3) = true := by
  refine ⟨?_, ?_, ?_, by decide, by decide⟩ <;>
    cases h : areEqual x y <;>
      simp [shouldBeEqual, shouldNotBeEqual, h]

/-- C10: `getLength` returns 0 on nil, the empty string, and every value
whose kind is not map, slice, channel or string; consequently the Empty
assertion succeeds (`shouldBeEmpty` does not fail) and the NotEmpty
assertion fails (`shouldNotBeEmpty` fails) on all such inputs. -/
theorem getLengthZeroOutsideCollections (v : GoValue)
    (h : nilEmptyOrNonCollection v = true) :
    getLength v = 0 ∧
    (shouldBeEmpty v).1 = false ∧
    (shouldNotBeEmpty v).1 = true := by
  cases v <;>
    simp_all +decide [nilEmptyOrNonCollection, getLength, shouldBeEmpty,
      shouldNotBeEmpty]

/-- Witness for C10: the integer 42 and a struct are non-collections,
the empty string is the empty string; on each, length is 0, Empty
succeeds and NotEmpty fails. -/
theorem getLengthZeroOutsideCollectionsWitness :
    nilEmptyOrNonCollection (.intV 42) = true ∧
    (getLength (.intV 42) = 0 ∧
      (shouldBeEmpty (.intV 42)).1 = false ∧
      (shouldNotBeEmpty (.intV 42)).1 = true) ∧
    (getLength (.structV 1 2) = 0 ∧
      (shouldBeEmpty (.structV 1 2)).1 = false ∧
      (shouldNotBeEmpty (.structV 1 2)).1 = true) ∧
    (getLength (.stringV "") = 0 ∧
      (shouldBeEmpty (.stringV "")).1 = false ∧
      (shouldNotBeEmpty (.stringV "")).1 = true) :=
  ⟨by decide,
   getLengthZeroOutsideCollections (.intV 42) (by decide),
   getLengthZeroOutsideCollections (.structV 1 2) (by decide),
   getLengthZeroOutsideCollections (.stringV "") (by decide)⟩

end Claims
